import Mathlib

/-!
A verification development for the dooray-mcp tool handlers.

The TypeScript tool handlers are embedded as pure Lean functions.  Network
and filesystem effects are made explicit: each handler takes an environment
record describing what the outside world would answer, and returns the tool
envelope together with the trace of calls/effects it issued, in order.
-/

/-- JSON-like JavaScript values, used for request payloads and API
responses.  Objects are ordered key/value lists, mirroring JS object key
insertion order. -/
inductive JsValue where
  | vNull : JsValue
  | vBool : Bool → JsValue
  | vNum : Int → JsValue
  | vStr : String → JsValue
  | vArr : List JsValue → JsValue
  | vObj : List (String × JsValue) → JsValue

/-- JavaScript falsiness of a value (the `!result` test in the
orchestrator). -/
def jsFalsy : JsValue → Bool
  | .vNull => true
  | .vBool b => !b
  | .vNum n => n == 0
  | .vStr s => s == ""
  | .vArr _ => false
  | .vObj _ => false

/-- JS truthiness of an optional string (`undefined` and `""` are falsy). -/
def jsTruthyStr : Option String → Bool
  | none => false
  | some s => s != ""

/-- `a || b` where `a` is a possibly undefined string and `b` a default. -/
def jsOrStr (a : Option String) (b : String) : String :=
  match a with
  | none => b
  | some s => if s == "" then b else s

/-- String interpolation of a possibly undefined value: JS template
literals render `undefined` as the string "undefined". -/
def jsUndefOr : Option String → String
  | none => "undefined"
  | some s => s

/-- JS array indexing with a possibly negative index: any out-of-range
index gives `undefined`. -/
def jsIdx (xs : List String) (i : Int) : Option String :=
  if i < 0 then none else xs.get? i.toNat

/-- `String.prototype.trim`: strip whitespace from both ends. -/
def jsTrim (s : String) : String :=
  String.mk (((s.data.dropWhile Char.isWhitespace).reverse.dropWhile
    Char.isWhitespace).reverse)

/-- Helper for `jsSplitChar`: accumulates the current piece in reverse. -/
def jsSplitCharAux (sep : Char) : List Char → List Char → List String
  | [], acc => [String.mk acc.reverse]
  | c :: rest, acc =>
      if c == sep then String.mk acc.reverse :: jsSplitCharAux sep rest []
      else jsSplitCharAux sep rest (c :: acc)

/-- `String.prototype.split` with a one-character separator. -/
def jsSplitChar (s : String) (sep : Char) : List String :=
  jsSplitCharAux sep s.data []

/-- The text payload of a tool envelope: either the JSON serialization of
a value (`JSON.stringify(v, null, 2)`, kept abstract as the value itself)
or a raw template-literal string. -/
inductive ToolText where
  | jsonOf : JsValue → ToolText
  | raw : String → ToolText

/-- One entry of the `content` array of a tool envelope. -/
structure ContentItem where
  type : String
  text : ToolText

/-- The MCP tool envelope `{ content: [...], isError?: true }`; `isError`
is `none` when the key is absent (the success shape). -/
structure ToolResult where
  content : List ContentItem
  isError : Option Bool

/-- Modelled from the spec: `formatError` (src/utils/errors.ts is not under
src/); per the spec the thrown error's or the server's own message is
surfaced, so it is modelled as the identity on the message. -/
def formatError (msg : String) : String := msg

/-- The success envelope every handler returns:
`{ content: [{type:'text', text: ...}] }`. -/
def okResult (t : ToolText) : ToolResult :=
  { content := [{ type := "text", text := t }], isError := none }

/-- The catch-block envelope every handler returns on failure:
`{ content: [{type:'text', text: 'Error: ' + formatError(error)}], isError: true }`. -/
def errResult (msg : String) : ToolResult :=
  { content := [{ type := "text", text := .raw ("Error: " ++ formatError msg) }],
    isError := some true }

/-! ## Task update orchestrator (update-task tool) -/

/-- A task assignee / CC entry `{id, type}`; `type` is one of
member/group/email (enforced by the input schema, which is external). -/
structure Member where
  id : String
  type : String

/-- A task body `{mimeType, content}`. -/
structure TaskBody where
  mimeType : String
  content : String

/-- Arguments of the update-task tool after schema validation.  An
optional field is `none` when the key was omitted; `milestoneId` is
nullable-optional, so `some none` is an explicit JSON `null`. -/
structure UpdateTaskArgs where
  projectId : String
  taskId : String
  subject : Option String
  body : Option TaskBody
  assignees : Option (List Member)
  cc : Option (List Member)
  dueDate : Option String
  milestoneId : Option (Option String)
  tagIds : Option (List String)
  priority : Option String
  workflowId : Option String
  parentPostId : Option String

/-- Modelled from the spec: `transformMembers`
(src/utils/member-transform.ts is not under src/); per the spec the
combined users payload defaults an unsupplied member list to empty. -/
def transformMembers : Option (List Member) → List Member
  | none => []
  | some ms => ms

/-- Payload rendering of one member entry. -/
def memberJson (m : Member) : JsValue :=
  .vObj [("id", .vStr m.id), ("type", .vStr m.type)]

/-- Payload rendering of a member list. -/
def membersJson (ms : List Member) : JsValue :=
  .vArr (ms.map memberJson)

/-- Payload rendering of a task body. -/
def taskBodyJson (b : TaskBody) : JsValue :=
  .vObj [("mimeType", .vStr b.mimeType), ("content", .vStr b.content)]

/-- `if (args.subject !== undefined) updateParams.subject = args.subject`. -/
def subjectSeg : Option String → List (String × JsValue)
  | none => []
  | some s => [("subject", .vStr s)]

/-- `if (args.body !== undefined) updateParams.body = args.body`. -/
def bodySeg : Option TaskBody → List (String × JsValue)
  | none => []
  | some b => [("body", taskBodyJson b)]

/-- `if (args.dueDate !== undefined) updateParams.dueDate = args.dueDate`. -/
def dueDateSeg : Option String → List (String × JsValue)
  | none => []
  | some d => [("dueDate", .vStr d)]

/-- `if (args.milestoneId !== undefined) updateParams.milestoneId = args.milestoneId`;
an explicit `null` is kept as the value `null`. -/
def milestoneSeg : Option (Option String) → List (String × JsValue)
  | none => []
  | some none => [("milestoneId", .vNull)]
  | some (some s) => [("milestoneId", .vStr s)]

/-- `if (args.tagIds !== undefined) updateParams.tagIds = args.tagIds`. -/
def tagIdsSeg : Option (List String) → List (String × JsValue)
  | none => []
  | some l => [("tagIds", .vArr (l.map .vStr))]

/-- `if (args.priority !== undefined) updateParams.priority = args.priority`. -/
def prioritySeg : Option String → List (String × JsValue)
  | none => []
  | some p => [("priority", .vStr p)]

/-- The combined `users` value `{to, cc}` built from both member lists. -/
def usersVal (a c : Option (List Member)) : JsValue :=
  .vObj [("to", membersJson (transformMembers a)),
         ("cc", membersJson (transformMembers c))]

/-- The `users` field: included only when `assignees` or `cc` was provided
(even as an empty list), combining both sides through `transformMembers`. -/
def usersSeg : Option (List Member) → Option (List Member) → List (String × JsValue)
  | none, none => []
  | a, c => [("users", usersVal a c)]

/-- Step 1 of `updateTaskHandler`: the base-field patch payload
`updateParams`, with keys in the source's insertion order. -/
def buildUpdateParams (args : UpdateTaskArgs) : List (String × JsValue) :=
  subjectSeg args.subject ++ bodySeg args.body ++ dueDateSeg args.dueDate ++
    milestoneSeg args.milestoneId ++ tagIdsSeg args.tagIds ++
    prioritySeg args.priority ++ usersSeg args.assignees args.cc

/-- What the projects API collaborator would answer to each endpoint; an
`Except.error` is a thrown exception. -/
structure ProjectsEnv where
  updateTaskResult : Except String JsValue
  setTaskWorkflowResult : Except String Unit
  setParentPostResult : Except String Unit
  getTaskDetailsResult : Except String JsValue

/-- One network call made through the projects API. -/
inductive ApiCall where
  | updateTask (projectId taskId : String) (params : List (String × JsValue))
  | setTaskWorkflow (projectId taskId workflowId : String)
  | setParentPost (projectId taskId parentPostId : String)
  | getTaskDetails (taskId projectId : String)

/-- Is this call the field-patch PUT? -/
def ApiCall.isFieldPatch : ApiCall → Bool
  | .updateTask _ _ _ => true
  | _ => false

/-- Is this call the workflow PUT? -/
def ApiCall.isWorkflow : ApiCall → Bool
  | .setTaskWorkflow _ _ _ => true
  | _ => false

/-- Step 5 of `updateTaskHandler`: when `result` is still falsy, fetch the
task's full representation and return it. -/
def utStep5 (args : UpdateTaskArgs) (env : ProjectsEnv) (result : JsValue)
    (calls : List ApiCall) : ToolResult × List ApiCall :=
  if jsFalsy result then
    match env.getTaskDetailsResult with
    | .error e => (errResult e, calls ++ [.getTaskDetails args.taskId args.projectId])
    | .ok v => (okResult (.jsonOf v), calls ++ [.getTaskDetails args.taskId args.projectId])
  else (okResult (.jsonOf result), calls)

/-- Step 4 of `updateTaskHandler`: parent-assignment PUT when
`parentPostId` was supplied. -/
def utStep4 (args : UpdateTaskArgs) (env : ProjectsEnv) (result : JsValue)
    (calls : List ApiCall) : ToolResult × List ApiCall :=
  match args.parentPostId with
  | some p =>
      match env.setParentPostResult with
      | .error e => (errResult e, calls ++ [.setParentPost args.projectId args.taskId p])
      | .ok _ => utStep5 args env result (calls ++ [.setParentPost args.projectId args.taskId p])
  | none => utStep5 args env result calls

/-- Step 3 of `updateTaskHandler`: workflow PUT when `workflowId` was
supplied. -/
def utStep3 (args : UpdateTaskArgs) (env : ProjectsEnv) (result : JsValue)
    (calls : List ApiCall) : ToolResult × List ApiCall :=
  match args.workflowId with
  | some w =>
      match env.setTaskWorkflowResult with
      | .error e => (errResult e, calls ++ [.setTaskWorkflow args.projectId args.taskId w])
      | .ok _ => utStep4 args env result (calls ++ [.setTaskWorkflow args.projectId args.taskId w])
  | none => utStep4 args env result calls

/-- The update-task tool handler (`updateTaskHandler` in the source): up to
three sequential mutation calls, then a full fetch when no base field was
patched.  A thrown exception at any step is caught into `errResult` with
the calls made so far. -/
def updateTaskHandler (args : UpdateTaskArgs) (env : ProjectsEnv) :
    ToolResult × List ApiCall :=
  let updateParams := buildUpdateParams args
  if updateParams.length > 0 then
    match env.updateTaskResult with
    | .error e => (errResult e, [.updateTask args.projectId args.taskId updateParams])
    | .ok v => utStep3 args env v [.updateTask args.projectId args.taskId updateParams]
  else utStep3 args env .vNull []

/-- An update-task argument record carrying only the required ids and
`workflowId`. -/
def onlyWorkflowArgs (pid tid w : String) : UpdateTaskArgs :=
  { projectId := pid, taskId := tid, subject := none, body := none,
    assignees := none, cc := none, dueDate := none, milestoneId := none,
    tagIds := none, priority := none, workflowId := some w, parentPostId := none }

example :
    updateTaskHandler (onlyWorkflowArgs "p" "t" "w")
      { updateTaskResult := .error "unused", setTaskWorkflowResult := .ok (),
        setParentPostResult := .ok (), getTaskDetailsResult := .ok (.vStr "task") } =
      (okResult (.jsonOf (.vStr "task")),
       [.setTaskWorkflow "p" "t" "w", .getTaskDetails "t" "p"]) := rfl

example :
    buildUpdateParams { onlyWorkflowArgs "p" "t" "w" with milestoneId := some none } =
      [("milestoneId", .vNull)] := rfl

/-! ## Wiki page update (update-wiki-page tool) -/

/-- A referrer entry `{type:'member', member:{organizationMemberId}}`. -/
structure Referrer where
  organizationMemberId : String

/-- Payload rendering of a referrer entry. -/
def referrerJson (r : Referrer) : JsValue :=
  .vObj [("type", .vStr "member"),
         ("member", .vObj [("organizationMemberId", .vStr r.organizationMemberId)])]

/-- Arguments of the update-wiki-page tool after schema validation.
`referrers` is nullable-optional, so `some none` is an explicit `null`. -/
structure UpdateWikiPageArgs where
  wikiId : String
  pageId : String
  subject : Option String
  content : Option String
  referrers : Option (Option (List Referrer))

/-- The `referrers` value the handler forwards: an explicit `null` clears
all referrers. -/
def wikiReferrersVal : Option (List Referrer) → JsValue
  | none => .vNull
  | some l => .vArr (l.map referrerJson)

/-- `wikiApi.updateWikiPage`'s request body: each key is set only when the
corresponding parameter is not `undefined`. -/
def updateWikiPageApiBody (subject : Option String) (body : Option JsValue)
    (referrers : Option JsValue) : List (String × JsValue) :=
  (match subject with | none => [] | some s => [("subject", .vStr s)]) ++
  (match body with | none => [] | some b => [("body", b)]) ++
  (match referrers with | none => [] | some r => [("referrers", r)])

/-- The PUT request body produced by `updateWikiPageHandler`: the `body`
field is forwarded only when `args.content` is truthy (the gate
`args.content ? {mimeType:'text/x-markdown', content} : undefined`), so an
empty string is dropped. -/
def updateWikiPageRequest (args : UpdateWikiPageArgs) : List (String × JsValue) :=
  updateWikiPageApiBody args.subject
    (match args.content with
     | some c =>
         if c == "" then none
         else some (.vObj [("mimeType", .vStr "text/x-markdown"), ("content", .vStr c)])
     | none => none)
    (args.referrers.map wikiReferrersVal)

/-- What the wiki API collaborator answers to the page-update PUT. -/
structure WikiPutEnv where
  putResult : Except String Unit

/-- The update-wiki-page tool handler: one PUT with the request body built
by `updateWikiPageRequest`, errors caught into the uniform envelope.  The
second component is the list of issued PUT request bodies. -/
def updateWikiPageHandler (args : UpdateWikiPageArgs) (env : WikiPutEnv) :
    ToolResult × List (List (String × JsValue)) :=
  let req := updateWikiPageRequest args
  match env.putResult with
  | .error e => (errResult e, [req])
  | .ok _ =>
      (okResult (.jsonOf (.vObj [("success", .vBool true),
        ("message", .vStr "Wiki page updated successfully")])), [req])

/-! ## Two-phase file upload (upload-wiki-file and upload-wiki-page-file) -/

/-- The `result` payload of a successful upload, as typed in the source. -/
structure UploadFileResult where
  id : String
  attachFileId : String
  name : Option String
  mimeType : String
  size : Int

/-- The `header` of the upload response envelope. -/
structure UploadRespHeader where
  isSuccessful : Bool
  resultMessage : Option String

/-- The JSON envelope `{ header: {...}, result: {...} }` of the second
upload request; `header` may be absent (`response.header?.`). -/
structure UploadEnvelope where
  header : Option UploadRespHeader
  result : UploadFileResult

/-- The environment of an upload handler: process environment variables,
the local filesystem check, and what each curl invocation would produce
(`Except.error` is a rejected `execAsync` or a `JSON.parse` throw). -/
structure UploadEnv where
  apiToken : Option String
  baseUrl : Option String
  fileExists : Bool
  step1 : Except String String
  step2 : Except String UploadEnvelope
  direct : Except String UploadEnvelope

/-- `path.basename` for ordinary slash-separated paths. -/
def pathBasename (p : String) : String :=
  (jsSplitChar p '/').getLastD p

/-- The step-1 result parsing shared by both upload handlers:
`const step1Lines = step1Result.stdout.trim().split('\n')`, then
`httpCode = step1Lines[step1Lines.length - 2]` and
`redirectUrl = step1Lines[step1Lines.length - 1]` with JS indexing. -/
def parseStep1 (stdout : String) : Option String × Option String :=
  let lines := jsSplitChar (jsTrim stdout) '\n'
  (jsIdx lines ((lines.length : Int) - 2), jsIdx lines ((lines.length : Int) - 1))

/-- Models the stdout of the first curl invocation (the external HTTP
collaborator): with `-o /dev/null` the body is discarded, and the
write-out format `'\n%{http_code}\n%{redirect_url}'` emits a newline, the
HTTP status code, a newline, and the redirect target — the empty string
when the response carries none. -/
def curlStep1Stdout (httpCode redirectUrl : String) : String :=
  "\n" ++ httpCode ++ "\n" ++ redirectUrl

/-- `response.header?.isSuccessful` as a truthiness test. -/
def uploadHeaderSuccessful : Option UploadRespHeader → Bool
  | none => false
  | some h => h.isSuccessful

/-- `response.header?.resultMessage || 'Upload failed'`. -/
def uploadFailMessage (h : Option UploadRespHeader) : String :=
  jsOrStr (h.bind (fun x => x.resultMessage)) "Upload failed"

/-- Checking the envelope of the second (or direct) upload response:
throws the server's message when `isSuccessful` is falsy. -/
def uploadParseResponse (resp : UploadEnvelope) : Except String UploadFileResult :=
  if !(uploadHeaderSuccessful resp.header) then .error (uploadFailMessage resp.header)
  else .ok resp.result

/-- The success JSON constructed by both upload handlers. -/
def uploadSuccessJson (r : UploadFileResult) (fileName message : String) : JsValue :=
  .vObj [("success", .vBool true), ("fileId", .vStr r.id),
         ("attachFileId", .vStr r.attachFileId),
         ("fileName", .vStr (jsOrStr r.name fileName)),
         ("mimeType", .vStr r.mimeType), ("size", .vNum r.size),
         ("message", .vStr message)]

/-- Arguments of the upload-wiki-file tool. -/
structure UploadWikiFileArgs where
  wikiId : String
  filePath : String

/-- Arguments of the upload-wiki-page-file tool. -/
structure UploadWikiPageFileArgs where
  wikiId : String
  pageId : String
  filePath : String

/-- The common body of both upload handlers, from the `apiUrl` computation
on: step 1 POST to `apiUrl`, then either the redirect-following POST, the
direct re-POST, or the unexpected-status throw.  The second component is
the ordered list of URLs POSTed. -/
def uploadProtocol (env : UploadEnv) (apiUrl fileName okMessageOf : String)
    : ToolResult × List String :=
  match env.step1 with
  | .error e => (errResult e, [apiUrl])
  | .ok stdout =>
      let parsed := parseStep1 stdout
      let httpCode := parsed.1
      let redirectUrl := parsed.2
      if httpCode == some "307" && jsTruthyStr redirectUrl then
        match env.step2 with
        | .error e => (errResult e, [apiUrl, jsUndefOr redirectUrl])
        | .ok resp =>
            match uploadParseResponse resp with
            | .error e => (errResult e, [apiUrl, jsUndefOr redirectUrl])
            | .ok r =>
                (okResult (.jsonOf (uploadSuccessJson r fileName
                  ("File \"" ++ jsOrStr r.name fileName ++ "\" " ++ okMessageOf))),
                 [apiUrl, jsUndefOr redirectUrl])
      else if httpCode == some "200" || httpCode == some "201" then
        match env.direct with
        | .error e => (errResult e, [apiUrl, apiUrl])
        | .ok resp =>
            match uploadParseResponse resp with
            | .error e => (errResult e, [apiUrl, apiUrl])
            | .ok r =>
                (okResult (.jsonOf (uploadSuccessJson r fileName
                  ("File \"" ++ jsOrStr r.name fileName ++ "\" " ++ okMessageOf))),
                 [apiUrl, apiUrl])
      else
        (errResult ("Unexpected HTTP status: " ++ jsUndefOr httpCode), [apiUrl])

/-- The upload-wiki-file tool handler (`uploadWikiFileHandler`): token and
local-file preconditions, then the two-phase upload protocol against the
wiki-level files endpoint. -/
def uploadWikiFileHandler (args : UploadWikiFileArgs) (env : UploadEnv) :
    ToolResult × List String :=
  if !(jsTruthyStr env.apiToken) then
    (errResult "DOORAY_API_TOKEN environment variable is required", [])
  else if !env.fileExists then
    (errResult ("File not found: " ++ args.filePath), [])
  else
    let fileName := pathBasename args.filePath
    let baseUrl := jsOrStr env.baseUrl "https://api.dooray.com"
    let apiUrl := baseUrl ++ "/wiki/v1/wikis/" ++ args.wikiId ++ "/files"
    uploadProtocol env apiUrl fileName
      "successfully uploaded to wiki. Use attachFileId when creating a wiki page with attachments."

/-- The upload-wiki-page-file tool handler (`uploadWikiPageFileHandler`):
same protocol against the page-level files endpoint. -/
def uploadWikiPageFileHandler (args : UploadWikiPageFileArgs) (env : UploadEnv) :
    ToolResult × List String :=
  if !(jsTruthyStr env.apiToken) then
    (errResult "DOORAY_API_TOKEN environment variable is required", [])
  else if !env.fileExists then
    (errResult ("File not found: " ++ args.filePath), [])
  else
    let fileName := pathBasename args.filePath
    let baseUrl := jsOrStr env.baseUrl "https://api.dooray.com"
    let apiUrl := baseUrl ++ "/wiki/v1/wikis/" ++ args.wikiId ++ "/pages/" ++
      args.pageId ++ "/files"
    uploadProtocol env apiUrl fileName "successfully uploaded to wiki page."

example : parseStep1 (curlStep1Stdout "404" "") = (none, some "404") := rfl

example : parseStep1 (curlStep1Stdout "307" "http://x") = (some "307", some "http://x") := rfl

/-! ## File download (download-wiki-page-file and download-wiki-attach-file) -/

/-- Value of a hexadecimal digit. -/
def hexVal (c : Char) : Option Nat :=
  if '0' ≤ c ∧ c ≤ '9' then some (c.toNat - 48)
  else if 'a' ≤ c ∧ c ≤ 'f' then some (c.toNat - 87)
  else if 'A' ≤ c ∧ c ≤ 'F' then some (c.toNat - 70)
  else none

/-- UTF-8 encoding of a Unicode code point. -/
def natUtf8Bytes (n : Nat) : List Nat :=
  if n < 0x80 then [n]
  else if n < 0x800 then [0xC0 + n / 64, 0x80 + n % 64]
  else if n < 0x10000 then [0xE0 + n / 4096, 0x80 + (n / 64) % 64, 0x80 + n % 64]
  else [0xF0 + n / 262144, 0x80 + (n / 4096) % 64, 0x80 + (n / 64) % 64, 0x80 + n % 64]

/-- Is this byte a UTF-8 continuation byte? -/
def utf8Cont (b : Nat) : Bool :=
  decide (0x80 ≤ b ∧ b < 0xC0)

/-- Strict UTF-8 decoding of a byte sequence (rejecting overlong forms,
surrogates and out-of-range code points, as `decodeURIComponent` does). -/
def utf8DecodeList : List Nat → Option (List Char)
  | [] => some []
  | b1 :: rest =>
      if b1 < 0x80 then (utf8DecodeList rest).map (fun cs => Char.ofNat b1 :: cs)
      else if b1 < 0xC2 then none
      else if b1 < 0xE0 then
        match rest with
        | b2 :: rest2 =>
            if utf8Cont b2 then
              (utf8DecodeList rest2).map
                (fun cs => Char.ofNat ((b1 - 0xC0) * 64 + (b2 - 0x80)) :: cs)
            else none
        | _ => none
      else if b1 < 0xF0 then
        match rest with
        | b2 :: b3 :: rest3 =>
            if utf8Cont b2 && utf8Cont b3 then
              let cp := (b1 - 0xE0) * 4096 + (b2 - 0x80) * 64 + (b3 - 0x80)
              if cp < 0x800 ∨ (0xD800 ≤ cp ∧ cp < 0xE000) then none
              else (utf8DecodeList rest3).map (fun cs => Char.ofNat cp :: cs)
            else none
        | _ => none
      else if b1 < 0xF5 then
        match rest with
        | b2 :: b3 :: b4 :: rest4 =>
            if utf8Cont b2 && utf8Cont b3 && utf8Cont b4 then
              let cp := (b1 - 0xF0) * 262144 + (b2 - 0x80) * 4096 +
                (b3 - 0x80) * 64 + (b4 - 0x80)
              if cp < 0x10000 ∨ 0x10FFFF < cp then none
              else (utf8DecodeList rest4).map (fun cs => Char.ofNat cp :: cs)
            else none
        | _ => none
      else none

/-- The `%XX` decoding underlying `decodeURIComponent`: literal characters
contribute their UTF-8 bytes, `%` must head two hex digits. -/
def percentDecodeBytes : List Char → Option (List Nat)
  | [] => some []
  | '%' :: a :: b :: rest =>
      match hexVal a, hexVal b with
      | some x, some y => (percentDecodeBytes rest).map (fun bs => (16 * x + y) :: bs)
      | _, _ => none
  | '%' :: _ => none
  | c :: rest => (percentDecodeBytes rest).map (fun bs => natUtf8Bytes c.toNat ++ bs)

/-- `try { decodeURIComponent(s) } catch { s }`: the raw string is kept
when decoding throws. -/
def jsDecodeURIOr (s : String) : String :=
  match percentDecodeBytes s.data with
  | none => s
  | some bs =>
      match utf8DecodeList bs with
      | none => s
      | some cs => String.mk cs

/-- `s.replace(/['"]/g, '')`. -/
def stripQuotes (s : String) : String :=
  String.mk (s.data.filter (fun c => !(c == '\'' || c == '"')))

/-- Character class `[^;=\n]`. -/
def notSemiEqNl (c : Char) : Bool :=
  !(c == ';' || c == '=' || c == '\n')

/-- Character class `[^;\n]`. -/
def notSemiNl (c : Char) : Bool :=
  !(c == ';' || c == '\n')

/-- The capture group `((['"]).*?\2|[^;\n]*)` evaluated after the `=`:
a lazily closed quoted form on the same line, else the unquoted run. -/
def filenameCapture (tail : List Char) : List Char :=
  match tail with
  | [] => []
  | q :: rest =>
      if q == '\'' || q == '"' then
        match (rest.takeWhile (fun c => !(c == '\n'))).findIdx? (fun c => c == q) with
        | some m => q :: (rest.take m ++ [q])
        | none => tail.takeWhile notSemiNl
      else tail.takeWhile notSemiNl

/-- One attempt of `/filename[^;=\n]*=((['"]).*?\2|[^;\n]*)/` anchored at
the head of `l`. -/
def tryFilenameAt (l : List Char) : Option (List Char) :=
  if "filename".data.isPrefixOf l then
    let rest := l.drop 8
    let run := rest.takeWhile notSemiEqNl
    match rest.drop run.length with
    | '=' :: tail => some (filenameCapture tail)
    | _ => none
  else none

/-- The leftmost match of the filename regex, as `String.prototype.match`
scans. -/
def findFilenameMatch : List Char → Option (List Char)
  | [] => none
  | l@(_ :: tail) =>
      match tryFilenameAt l with
      | some cap => some cap
      | none => findFilenameMatch tail

/-- `extractFilename` from both download tools: `undefined` when the
`Content-Disposition` header is absent (or empty, which is falsy);
otherwise the regex capture, quote-stripped and percent-decoded with a
fall-back to the raw capture. -/
def extractFilename : Option String → Option String
  | none => none
  | some cd =>
      if cd == "" then none
      else
        match findFilenameMatch cd.data with
        | none => none
        | some cap => some (jsDecodeURIOr (stripQuotes (String.mk cap)))

/-- `String.prototype.endsWith` with a one-character suffix. -/
def endsWithChar (s : String) (c : Char) : Bool :=
  match s.data.getLast? with
  | some x => x == c
  | none => false

/-- `path.join(dir, name)` for the slash-separated shapes used here. -/
def jsPathJoin (dir name : String) : String :=
  if endsWithChar dir '/' then dir ++ name else dir ++ "/" ++ name

/-- Join path pieces back with slashes. -/
def joinSlash : List String → String
  | [] => ""
  | [x] => x
  | x :: rest => x ++ "/" ++ joinSlash rest

/-- `path.dirname` for the ordinary relative/absolute paths used here. -/
def jsPathDirname (p : String) : String :=
  match jsSplitChar p '/' with
  | [] => "."
  | [_] => "."
  | parts => joinSlash parts.dropLast

/-- The base64 alphabet. -/
def base64CharTable : List Char :=
  "ABCDEFGHIJKLMNOPQRSTUVWXYZabcdefghijklmnopqrstuvwxyz0123456789+/".data

/-- Look up one base64 digit. -/
def b64c (n : Nat) : Char :=
  base64CharTable.getD n '?'

/-- `Buffer.prototype.toString('base64')`. -/
def base64Encode : List Nat → String
  | [] => ""
  | [b1] => String.mk [b64c (b1 / 4), b64c ((b1 % 4) * 16)] ++ "=="
  | [b1, b2] =>
      String.mk [b64c (b1 / 4), b64c ((b1 % 4) * 16 + b2 / 16), b64c ((b2 % 16) * 4)] ++ "="
  | b1 :: b2 :: b3 :: rest =>
      String.mk [b64c (b1 / 4), b64c ((b1 % 4) * 16 + b2 / 16),
                 b64c ((b2 % 16) * 4 + b3 / 64), b64c (b3 % 64)] ++ base64Encode rest

/-- What the wiki API download call answers: the response headers the
handler reads and the raw body bytes. -/
structure DownloadDto where
  contentDisposition : Option String
  data : List Nat
  contentType : String
  contentLength : Nat

/-- The local filesystem as the handler observes it. -/
structure DownloadFsEnv where
  existsAt : String → Bool
  isDirAt : String → Bool

/-- Environment of a download handler. -/
structure DownloadEnv where
  apiResult : Except String DownloadDto
  fs : DownloadFsEnv

/-- A local filesystem effect issued by a download handler, in order. -/
inductive FsEffect where
  | mkdir (path : String)
  | write (path : String) (data : List Nat)

/-- Arguments of the download-wiki-page-file tool. -/
structure DownloadWikiPageFileArgs where
  wikiId : String
  pageId : String
  fileId : String
  savePath : Option String

/-- Arguments of the download-wiki-attach-file tool. -/
structure DownloadWikiAttachFileArgs where
  wikiId : String
  attachFileId : String
  savePath : Option String

/-- `filename: filename` in the success JSON: `JSON.stringify` drops the
key when the value is `undefined`. -/
def filenameSeg : Option String → List (String × JsValue)
  | none => []
  | some f => [("filename", .vStr f)]

/-- The success JSON of a saved download. -/
def downloadSavedJson (idKey idVal : String) (filename : Option String)
    (ct : String) (cl : Nat) (target : String) : JsValue :=
  .vObj ([("success", .vBool true), (idKey, .vStr idVal)] ++ filenameSeg filename ++
         [("contentType", .vStr ct), ("contentLength", .vNum (cl : Int)),
          ("savedTo", .vStr target),
          ("message", .vStr ("File saved to \"" ++ target ++ "\" (" ++
            toString cl ++ " bytes)"))])

/-- The success JSON of a base64-returned download. -/
def downloadBase64Json (idKey idVal : String) (filename : Option String)
    (ct : String) (cl : Nat) (b64 : String) : JsValue :=
  .vObj ([("success", .vBool true), (idKey, .vStr idVal)] ++ filenameSeg filename ++
         [("contentType", .vStr ct), ("contentLength", .vNum (cl : Int)),
          ("base64Data", .vStr b64)])

/-- The download-wiki-page-file tool handler (`downloadWikiPageFileHandler`):
recover the filename from `Content-Disposition`, then either save to the
given path (appending the recovered or generated `wiki-file-${fileId}` name
when the path is directory-style) or return base64 content. -/
def downloadWikiPageFileHandler (args : DownloadWikiPageFileArgs)
    (env : DownloadEnv) : ToolResult × List FsEffect :=
  match env.apiResult with
  | .error e => (errResult e, [])
  | .ok dto =>
      let filename := extractFilename dto.contentDisposition
      match args.savePath with
      | some sp =>
          let isDirectory := endsWithChar sp '/' || (env.fs.existsAt sp && env.fs.isDirAt sp)
          if isDirectory then
            let pre := if !(env.fs.existsAt sp) then [FsEffect.mkdir sp] else []
            let target := jsPathJoin sp (jsOrStr filename ("wiki-file-" ++ args.fileId))
            (okResult (.jsonOf (downloadSavedJson "fileId" args.fileId filename
              dto.contentType dto.contentLength target)),
             pre ++ [FsEffect.write target dto.data])
          else
            let dir := jsPathDirname sp
            let pre := if !(env.fs.existsAt dir) then [FsEffect.mkdir dir] else []
            (okResult (.jsonOf (downloadSavedJson "fileId" args.fileId filename
              dto.contentType dto.contentLength sp)),
             pre ++ [FsEffect.write sp dto.data])
      | none =>
          (okResult (.jsonOf (downloadBase64Json "fileId" args.fileId filename
            dto.contentType dto.contentLength (base64Encode dto.data))), [])

/-- The download-wiki-attach-file tool handler
(`downloadWikiAttachFileHandler`): identical flow addressed by
`attachFileId`, generating `wiki-attach-${attachFileId}` as the fall-back
name. -/
def downloadWikiAttachFileHandler (args : DownloadWikiAttachFileArgs)
    (env : DownloadEnv) : ToolResult × List FsEffect :=
  match env.apiResult with
  | .error e => (errResult e, [])
  | .ok dto =>
      let filename := extractFilename dto.contentDisposition
      match args.savePath with
      | some sp =>
          let isDirectory := endsWithChar sp '/' || (env.fs.existsAt sp && env.fs.isDirAt sp)
          if isDirectory then
            let pre := if !(env.fs.existsAt sp) then [FsEffect.mkdir sp] else []
            let target := jsPathJoin sp (jsOrStr filename ("wiki-attach-" ++ args.attachFileId))
            (okResult (.jsonOf (downloadSavedJson "attachFileId" args.attachFileId filename
              dto.contentType dto.contentLength target)),
             pre ++ [FsEffect.write target dto.data])
          else
            let dir := jsPathDirname sp
            let pre := if !(env.fs.existsAt dir) then [FsEffect.mkdir dir] else []
            (okResult (.jsonOf (downloadSavedJson "attachFileId" args.attachFileId filename
              dto.contentType dto.contentLength sp)),
             pre ++ [FsEffect.write sp dto.data])
      | none =>
          (okResult (.jsonOf (downloadBase64Json "attachFileId" args.attachFileId filename
            dto.contentType dto.contentLength (base64Encode dto.data))), [])

example : extractFilename (some "attachment; filename=\"report.pdf\"") = some "report.pdf" := rfl

example : extractFilename (some "attachment; filename=re%20port.pdf") = some "re port.pdf" := rfl

example : extractFilename none = none := rfl

/-! ## Trace lemmas for the update-task orchestrator -/

/-- The calls step 5 appends: a detail fetch exactly when `result` is
still falsy. -/
def step5Tail (args : UpdateTaskArgs) (result : JsValue) : List ApiCall :=
  if jsFalsy result then [.getTaskDetails args.taskId args.projectId] else []

/-- The calls steps 4–5 append. -/
def step4Tail (args : UpdateTaskArgs) (env : ProjectsEnv) (result : JsValue) :
    List ApiCall :=
  match args.parentPostId with
  | some p =>
      match env.setParentPostResult with
      | .error _ => [.setParentPost args.projectId args.taskId p]
      | .ok _ => .setParentPost args.projectId args.taskId p :: step5Tail args result
  | none => step5Tail args result

/-- The calls steps 3–5 append. -/
def step3Tail (args : UpdateTaskArgs) (env : ProjectsEnv) (result : JsValue) :
    List ApiCall :=
  match args.workflowId with
  | some w =>
      match env.setTaskWorkflowResult with
      | .error _ => [.setTaskWorkflow args.projectId args.taskId w]
      | .ok _ => .setTaskWorkflow args.projectId args.taskId w :: step4Tail args env result
  | none => step4Tail args env result

theorem utStep5_calls (args : UpdateTaskArgs) (env : ProjectsEnv) (r : JsValue)
    (calls : List ApiCall) :
    (utStep5 args env r calls).2 = calls ++ step5Tail args r := by
  unfold utStep5 step5Tail
  split
  · cases env.getTaskDetailsResult <;> simp
  · simp

theorem utStep4_calls (args : UpdateTaskArgs) (env : ProjectsEnv) (r : JsValue)
    (calls : List ApiCall) :
    (utStep4 args env r calls).2 = calls ++ step4Tail args env r := by
  unfold utStep4 step4Tail
  cases args.parentPostId with
  | none => exact utStep5_calls args env r calls
  | some p =>
      cases env.setParentPostResult <;> simp [utStep5_calls]

theorem utStep3_calls (args : UpdateTaskArgs) (env : ProjectsEnv) (r : JsValue)
    (calls : List ApiCall) :
    (utStep3 args env r calls).2 = calls ++ step3Tail args env r := by
  unfold utStep3 step3Tail
  cases args.workflowId with
  | none => exact utStep4_calls args env r calls
  | some w =>
      cases env.setTaskWorkflowResult <;> simp [utStep4_calls]

/-- The full call trace of the update-task handler. -/
theorem updateTaskHandler_calls (args : UpdateTaskArgs) (env : ProjectsEnv) :
    (updateTaskHandler args env).2 =
      if (buildUpdateParams args).length > 0 then
        .updateTask args.projectId args.taskId (buildUpdateParams args) ::
          (match env.updateTaskResult with
           | .error _ => []
           | .ok v => step3Tail args env v)
      else step3Tail args env .vNull := by
  simp only [updateTaskHandler]
  split
  · cases env.updateTaskResult <;> simp [utStep3_calls]
  · simp [utStep3_calls]

theorem step5Tail_no_patch (args : UpdateTaskArgs) (r : JsValue) :
    (step5Tail args r).countP ApiCall.isFieldPatch = 0 := by
  unfold step5Tail
  split <;> simp [ApiCall.isFieldPatch]

theorem step4Tail_no_patch (args : UpdateTaskArgs) (env : ProjectsEnv) (r : JsValue) :
    (step4Tail args env r).countP ApiCall.isFieldPatch = 0 := by
  unfold step4Tail
  cases args.parentPostId with
  | none => exact step5Tail_no_patch args r
  | some p =>
      cases env.setParentPostResult <;>
        simp [ApiCall.isFieldPatch, step5Tail_no_patch]

theorem step3Tail_no_patch (args : UpdateTaskArgs) (env : ProjectsEnv) (r : JsValue) :
    (step3Tail args env r).countP ApiCall.isFieldPatch = 0 := by
  unfold step3Tail
  cases args.workflowId with
  | none => exact step4Tail_no_patch args env r
  | some w =>
      cases env.setTaskWorkflowResult <;>
        simp [ApiCall.isFieldPatch, step4Tail_no_patch]

/-! ## Key lemmas for the field-patch payload -/

theorem mem_subjectSeg_key {o : Option String} {x : String × JsValue}
    (h : x ∈ subjectSeg o) : x.1 = "subject" := by
  cases o <;> simp_all [subjectSeg]

theorem mem_bodySeg_key {o : Option TaskBody} {x : String × JsValue}
    (h : x ∈ bodySeg o) : x.1 = "body" := by
  cases o <;> simp_all [bodySeg]

theorem mem_dueDateSeg_key {o : Option String} {x : String × JsValue}
    (h : x ∈ dueDateSeg o) : x.1 = "dueDate" := by
  cases o <;> simp_all [dueDateSeg]

theorem mem_milestoneSeg_key {o : Option (Option String)} {x : String × JsValue}
    (h : x ∈ milestoneSeg o) : x.1 = "milestoneId" := by
  rcases o with _ | (_ | s) <;> simp_all [milestoneSeg]

theorem mem_tagIdsSeg_key {o : Option (List String)} {x : String × JsValue}
    (h : x ∈ tagIdsSeg o) : x.1 = "tagIds" := by
  cases o <;> simp_all [tagIdsSeg]

theorem mem_prioritySeg_key {o : Option String} {x : String × JsValue}
    (h : x ∈ prioritySeg o) : x.1 = "priority" := by
  cases o <;> simp_all [prioritySeg]

theorem mem_usersSeg_key {a c : Option (List Member)} {x : String × JsValue}
    (h : x ∈ usersSeg a c) : x.1 = "users" := by
  cases a <;> cases c <;> simp_all [usersSeg]

/-- C2: an update-task invocation that supplies only `workflowId` (besides
the required `projectId` and `taskId`) never calls the field-patch
endpoint, calls the workflow endpoint exactly once under every
environment, and — when the workflow call and the fetch succeed — returns
the full task representation obtained by the subsequent fetch, with the
fetch issued after the workflow call. -/
theorem updateTask_only_workflow (pid tid w : String) (env : ProjectsEnv) (v : JsValue) :
    ((updateTaskHandler (onlyWorkflowArgs pid tid w) env).2).countP ApiCall.isFieldPatch = 0 ∧
    ((updateTaskHandler (onlyWorkflowArgs pid tid w) env).2).countP ApiCall.isWorkflow = 1 ∧
    updateTaskHandler (onlyWorkflowArgs pid tid w)
        { env with setTaskWorkflowResult := .ok (), getTaskDetailsResult := .ok v } =
      (okResult (.jsonOf v),
       [.setTaskWorkflow pid tid w, .getTaskDetails tid pid]) := by
  have hempty : buildUpdateParams (onlyWorkflowArgs pid tid w) = [] := rfl
  refine ⟨?_, ?_, ?_⟩
  · rw [updateTaskHandler_calls]
    simp [hempty, step3Tail_no_patch]
  · rw [updateTaskHandler_calls]
    simp only [hempty, List.length_nil, gt_iff_lt, lt_self_iff_false, if_false]
    cases h : env.setTaskWorkflowResult <;>
      simp [step3Tail, step4Tail, step5Tail, onlyWorkflowArgs, h,
        ApiCall.isWorkflow, jsFalsy, List.countP_cons]
  · rfl

/-- C3: supplying `milestoneId: null` puts the key `milestoneId` with value
`null` into the field-patch payload and makes the field-patch call fire,
whereas omitting `milestoneId` contributes no such key; the two payloads
differ. -/
theorem updateTask_milestone_null_distinct (args : UpdateTaskArgs) :
    (("milestoneId", JsValue.vNull) ∈
       buildUpdateParams { args with milestoneId := some none }) ∧
    (∀ v, ("milestoneId", v) ∉ buildUpdateParams { args with milestoneId := none }) ∧
    buildUpdateParams { args with milestoneId := some none } ≠
      buildUpdateParams { args with milestoneId := none } ∧
    (∀ env : ProjectsEnv,
      ((updateTaskHandler { args with milestoneId := some none } env).2).countP
        ApiCall.isFieldPatch = 1) := by
  have h1 : ("milestoneId", JsValue.vNull) ∈
      buildUpdateParams { args with milestoneId := some none } := by
    simp [buildUpdateParams, List.mem_append, milestoneSeg]
  have h2 : ∀ v, ("milestoneId", v) ∉ buildUpdateParams { args with milestoneId := none } := by
    intro v h
    simp only [buildUpdateParams, List.mem_append] at h
    rcases h with ((((((h | h) | h) | h) | h) | h) | h)
    · exact (by decide : ("milestoneId" : String) ≠ "subject") (mem_subjectSeg_key h)
    · exact (by decide : ("milestoneId" : String) ≠ "body") (mem_bodySeg_key h)
    · exact (by decide : ("milestoneId" : String) ≠ "dueDate") (mem_dueDateSeg_key h)
    · simp [milestoneSeg] at h
    · exact (by decide : ("milestoneId" : String) ≠ "tagIds") (mem_tagIdsSeg_key h)
    · exact (by decide : ("milestoneId" : String) ≠ "priority") (mem_prioritySeg_key h)
    · exact (by decide : ("milestoneId" : String) ≠ "users") (mem_usersSeg_key h)
  refine ⟨h1, h2, ?_, ?_⟩
  · intro heq
    exact h2 JsValue.vNull (heq ▸ h1)
  · intro env
    have hlen : 0 < (buildUpdateParams { args with milestoneId := some none }).length := by
      simp [buildUpdateParams, milestoneSeg]
    rw [updateTaskHandler_calls, if_pos hlen]
    cases h : env.updateTaskResult <;>
      simp [ApiCall.isFieldPatch, step3Tail_no_patch, List.countP_cons]

/-- C4: the update-task sub-calls are issued sequentially in the fixed
order field-patch, then workflow, then parent-assignment, then the final
fetch; when every sub-call succeeds, the workflow and parent calls fire
exactly when their triggering field is present, regardless of whether the
earlier steps fired. -/
theorem updateTask_calls_ordered (args : UpdateTaskArgs) (env0 : ProjectsEnv) (r : JsValue) :
    (updateTaskHandler args
        { env0 with
          updateTaskResult := .ok r,
          setTaskWorkflowResult := .ok (),
          setParentPostResult := .ok () }).2 =
      (if 0 < (buildUpdateParams args).length then
        [ApiCall.updateTask args.projectId args.taskId (buildUpdateParams args)] else []) ++
      (match args.workflowId with
       | some w => [ApiCall.setTaskWorkflow args.projectId args.taskId w]
       | none => []) ++
      (match args.parentPostId with
       | some p => [ApiCall.setParentPost args.projectId args.taskId p]
       | none => []) ++
      (if jsFalsy (if 0 < (buildUpdateParams args).length then r else .vNull) then
        [ApiCall.getTaskDetails args.taskId args.projectId] else []) := by
  rw [updateTaskHandler_calls]
  split
  · cases hw : args.workflowId <;> cases hp : args.parentPostId <;>
      simp [step3Tail, step4Tail, step5Tail, hw, hp, List.append_assoc]
  · cases hw : args.workflowId <;> cases hp : args.parentPostId <;>
      simp [step3Tail, step4Tail, step5Tail, hw, hp, List.append_assoc]

/-- C5: when the field-patch step succeeds and the subsequent workflow
step fails, the handler returns the workflow step's error, and the call
trace is exactly the field-patch call followed by the workflow call — no
parent-assignment, no final fetch, no compensating call. -/
theorem updateTask_partial_failure_surfaces (args0 : UpdateTaskArgs) (env0 : ProjectsEnv)
    (s w e : String) (r : JsValue) :
    updateTaskHandler { args0 with subject := some s, workflowId := some w }
        { env0 with updateTaskResult := .ok r, setTaskWorkflowResult := .error e } =
      (errResult e,
       [.updateTask args0.projectId args0.taskId
          (buildUpdateParams { args0 with subject := some s, workflowId := some w }),
        .setTaskWorkflow args0.projectId args0.taskId w]) := by
  have hlen : 0 < (buildUpdateParams
      { args0 with subject := some s, workflowId := some w }).length := by
    simp [buildUpdateParams, subjectSeg]
  simp only [updateTaskHandler]
  rw [if_pos hlen]
  simp [utStep3]

/-- C9: supplying `assignees` or `cc` (even as an empty list) puts the
combined `users` object built from both lists into the field-patch
payload, the unsupplied side defaulting to the empty list; when neither is
supplied, no `users` key appears. -/
theorem updateTask_users_combined (args : UpdateTaskArgs) (as cs : List Member) :
    (("users", usersVal (some as) args.cc) ∈
       buildUpdateParams { args with assignees := some as }) ∧
    (("users", usersVal args.assignees (some cs)) ∈
       buildUpdateParams { args with cc := some cs }) ∧
    (∀ v, ("users", v) ∉ buildUpdateParams { args with assignees := none, cc := none }) ∧
    transformMembers none = [] ∧
    usersVal none (some cs) = .vObj [("to", .vArr []), ("cc", membersJson cs)] ∧
    usersVal (some as) none = .vObj [("to", membersJson as), ("cc", .vArr [])] := by
  refine ⟨?_, ?_, ?_, rfl, rfl, rfl⟩
  · have h : usersSeg (some as) args.cc = [("users", usersVal (some as) args.cc)] := by
      cases args.cc <;> rfl
    simp [buildUpdateParams, List.mem_append, h]
  · have h : usersSeg args.assignees (some cs) =
        [("users", usersVal args.assignees (some cs))] := by
      cases args.assignees <;> rfl
    simp [buildUpdateParams, List.mem_append, h]
  · intro v h
    simp only [buildUpdateParams, List.mem_append] at h
    rcases h with ((((((h | h) | h) | h) | h) | h) | h)
    · exact (by decide : ("users" : String) ≠ "subject") (mem_subjectSeg_key h)
    · exact (by decide : ("users" : String) ≠ "body") (mem_bodySeg_key h)
    · exact (by decide : ("users" : String) ≠ "dueDate") (mem_dueDateSeg_key h)
    · exact (by decide : ("users" : String) ≠ "milestoneId") (mem_milestoneSeg_key h)
    · exact (by decide : ("users" : String) ≠ "tagIds") (mem_tagIdsSeg_key h)
    · exact (by decide : ("users" : String) ≠ "priority") (mem_prioritySeg_key h)
    · simp [usersSeg] at h

/-- C1 (evaluation at the failing inputs): with the first upload response
carrying no redirect target, the trimmed write-out collapses to a single
line, the parsed status is `undefined`, and the handler throws
"Unexpected HTTP status: undefined" — failing without any further network
call, but without naming the actual status code; a 307 response with an
empty redirect target takes the same unexpected-status path. -/
theorem upload_unexpected_status_reports_undefined :
    uploadWikiFileHandler { wikiId := "w", filePath := "/tmp/f.txt" }
        { apiToken := some "token", baseUrl := none, fileExists := true,
          step1 := .ok (curlStep1Stdout "404" ""),
          step2 := .error "unused", direct := .error "unused" } =
      (errResult "Unexpected HTTP status: undefined",
       ["https://api.dooray.com/wiki/v1/wikis/w/files"]) ∧
    uploadWikiPageFileHandler { wikiId := "w", pageId := "p", filePath := "/tmp/f.txt" }
        { apiToken := some "token", baseUrl := none, fileExists := true,
          step1 := .ok (curlStep1Stdout "307" ""),
          step2 := .error "unused", direct := .error "unused" } =
      (errResult "Unexpected HTTP status: undefined",
       ["https://api.dooray.com/wiki/v1/wikis/w/pages/p/files"]) :=
  ⟨rfl, rfl⟩

/-- C6: on both upload handlers, a falsy `DOORAY_API_TOKEN` fails with the
missing-token error and a missing local file fails with a not-found error
naming the path, in both cases before any network call (the POST trace is
empty). -/
theorem upload_preconditions_before_network (a1 : UploadWikiFileArgs)
    (a2 : UploadWikiPageFileArgs) (env : UploadEnv) :
    (jsTruthyStr env.apiToken = false →
      uploadWikiFileHandler a1 env =
        (errResult "DOORAY_API_TOKEN environment variable is required", []) ∧
      uploadWikiPageFileHandler a2 env =
        (errResult "DOORAY_API_TOKEN environment variable is required", [])) ∧
    (jsTruthyStr env.apiToken = true → env.fileExists = false →
      uploadWikiFileHandler a1 env = (errResult ("File not found: " ++ a1.filePath), []) ∧
      uploadWikiPageFileHandler a2 env =
        (errResult ("File not found: " ++ a2.filePath), [])) := by
  constructor
  · intro h
    constructor <;> simp [uploadWikiFileHandler, uploadWikiPageFileHandler, h]
  · intro h1 h2
    constructor <;> simp [uploadWikiFileHandler, uploadWikiPageFileHandler, h1, h2]

/-- Witness for C6: the hypotheses are discharged at concrete inputs. -/
theorem upload_preconditions_before_network_witness :
    (uploadWikiFileHandler { wikiId := "w", filePath := "/tmp/a" }
        { apiToken := none, baseUrl := none, fileExists := true,
          step1 := .error "x", step2 := .error "x", direct := .error "x" } =
      (errResult "DOORAY_API_TOKEN environment variable is required", [])) ∧
    (uploadWikiPageFileHandler { wikiId := "w", pageId := "p", filePath := "/tmp/b" }
        { apiToken := some "tok", baseUrl := none, fileExists := false,
          step1 := .error "x", step2 := .error "x", direct := .error "x" } =
      (errResult ("File not found: " ++ "/tmp/b"), [])) := by
  constructor
  · exact ((upload_preconditions_before_network
      { wikiId := "w", filePath := "/tmp/a" }
      { wikiId := "w", pageId := "p", filePath := "/tmp/b" }
      { apiToken := none, baseUrl := none, fileExists := true,
        step1 := .error "x", step2 := .error "x", direct := .error "x" }).1 rfl).1
  · exact ((upload_preconditions_before_network
      { wikiId := "w", filePath := "/tmp/a" }
      { wikiId := "w", pageId := "p", filePath := "/tmp/b" }
      { apiToken := some "tok", baseUrl := none, fileExists := false,
        step1 := .error "x", step2 := .error "x", direct := .error "x" }).2 rfl rfl).2

/-- C10: supplying `content` as the empty string produces exactly the same
update-wiki-page PUT request (and the same handler behaviour) as omitting
`content`, and the request body carries no `body` key, because the gate on
`content` is truthiness rather than presence. -/
theorem updateWikiPage_empty_content_omits_body (wid pid : String) (subj : Option String)
    (refs : Option (Option (List Referrer))) :
    updateWikiPageRequest
        { wikiId := wid, pageId := pid, subject := subj, content := some "",
          referrers := refs } =
      updateWikiPageRequest
        { wikiId := wid, pageId := pid, subject := subj, content := none,
          referrers := refs } ∧
    (∀ v, ("body", v) ∉ updateWikiPageRequest
        { wikiId := wid, pageId := pid, subject := subj, content := some "",
          referrers := refs }) ∧
    (∀ env, updateWikiPageHandler
        { wikiId := wid, pageId := pid, subject := subj, content := some "",
          referrers := refs } env =
      updateWikiPageHandler
        { wikiId := wid, pageId := pid, subject := subj, content := none,
          referrers := refs } env) := by
  refine ⟨rfl, ?_, fun env => rfl⟩
  intro v h
  rcases subj with _ | s <;> rcases refs with _ | rr <;>
    simp [updateWikiPageRequest, updateWikiPageApiBody, wikiReferrersVal] at h

theorem endsWithChar_append_slash (p : String) : endsWithChar (p ++ "/") '/' = true := by
  simp [endsWithChar, String.data_append, List.getLast?_concat]

/-- C7: when the download response carries no `Content-Disposition` header
the extracted filename is `undefined`, and a directory-style save path
(one ending in a separator, or an existing directory) receives the file
under the generated name containing the file identifier —
`wiki-file-${fileId}` for the page-file tool and
`wiki-attach-${attachFileId}` for the attach-file tool. -/
theorem download_missing_disposition_fallback_name
    (wid pid fid waid : String) (bytes : List Nat) (ct : String) (cl : Nat)
    (p q r : String) (fsa fsb : DownloadFsEnv) :
    extractFilename none = none ∧
    (downloadWikiPageFileHandler
        { wikiId := wid, pageId := pid, fileId := fid, savePath := some (p ++ "/") }
        { apiResult := .ok
            { contentDisposition := none, data := bytes, contentType := ct,
              contentLength := cl },
          fs := fsa }).2 =
      (if !(fsa.existsAt (p ++ "/")) then [FsEffect.mkdir (p ++ "/")] else []) ++
        [FsEffect.write ((p ++ "/") ++ ("wiki-file-" ++ fid)) bytes] ∧
    (downloadWikiAttachFileHandler
        { wikiId := wid, attachFileId := waid, savePath := some (q ++ "/") }
        { apiResult := .ok
            { contentDisposition := none, data := bytes, contentType := ct,
              contentLength := cl },
          fs := fsb }).2 =
      (if !(fsb.existsAt (q ++ "/")) then [FsEffect.mkdir (q ++ "/")] else []) ++
        [FsEffect.write ((q ++ "/") ++ ("wiki-attach-" ++ waid)) bytes] ∧
    (downloadWikiPageFileHandler
        { wikiId := wid, pageId := pid, fileId := fid, savePath := some r }
        { apiResult := .ok
            { contentDisposition := none, data := bytes, contentType := ct,
              contentLength := cl },
          fs := { existsAt := fun _ => true, isDirAt := fun _ => true } }).2 =
      [FsEffect.write (jsPathJoin r ("wiki-file-" ++ fid)) bytes] := by
  refine ⟨rfl, ?_, ?_, ?_⟩
  · simp [downloadWikiPageFileHandler, extractFilename, jsOrStr,
      endsWithChar_append_slash, jsPathJoin]
  · simp [downloadWikiAttachFileHandler, extractFilename, jsOrStr,
      endsWithChar_append_slash, jsPathJoin]
  · simp [downloadWikiPageFileHandler, extractFilename, jsOrStr]

/-! ## The uniform tool envelope -/

/-- The uniform envelope: a single text content item, and either no
`isError` key, or `isError: true` with a text beginning "Error: ". -/
def wellFormedEnvelope (r : ToolResult) : Prop :=
  (∃ t, r.content = [{ type := "text", text := t }]) ∧
  (r.isError = none ∨
    (r.isError = some true ∧
      ∃ s, r.content = [{ type := "text", text := .raw ("Error: " ++ s) }]))

theorem wellFormed_okResult (t : ToolText) : wellFormedEnvelope (okResult t) :=
  ⟨⟨t, rfl⟩, Or.inl rfl⟩

theorem wellFormed_errResult (m : String) : wellFormedEnvelope (errResult m) :=
  ⟨⟨.raw ("Error: " ++ formatError m), rfl⟩, Or.inr ⟨rfl, ⟨formatError m, rfl⟩⟩⟩

theorem wf_utStep5 (args : UpdateTaskArgs) (env : ProjectsEnv) (r : JsValue)
    (calls : List ApiCall) : wellFormedEnvelope (utStep5 args env r calls).1 := by
  unfold utStep5
  split
  · cases env.getTaskDetailsResult
    · exact wellFormed_errResult _
    · exact wellFormed_okResult _
  · exact wellFormed_okResult _

theorem wf_utStep4 (args : UpdateTaskArgs) (env : ProjectsEnv) (r : JsValue)
    (calls : List ApiCall) : wellFormedEnvelope (utStep4 args env r calls).1 := by
  unfold utStep4
  cases args.parentPostId with
  | none => exact wf_utStep5 args env r calls
  | some p =>
      cases env.setParentPostResult
      · exact wellFormed_errResult _
      · exact wf_utStep5 args env r _

theorem wf_utStep3 (args : UpdateTaskArgs) (env : ProjectsEnv) (r : JsValue)
    (calls : List ApiCall) : wellFormedEnvelope (utStep3 args env r calls).1 := by
  unfold utStep3
  cases args.workflowId with
  | none => exact wf_utStep4 args env r calls
  | some w =>
      cases env.setTaskWorkflowResult
      · exact wellFormed_errResult _
      · exact wf_utStep4 args env r _

theorem wf_updateTaskHandler (args : UpdateTaskArgs) (env : ProjectsEnv) :
    wellFormedEnvelope (updateTaskHandler args env).1 := by
  simp only [updateTaskHandler]
  split
  · cases env.updateTaskResult
    · exact wellFormed_errResult _
    · exact wf_utStep3 args env _ _
  · exact wf_utStep3 args env _ _

theorem wf_updateWikiPageHandler (args : UpdateWikiPageArgs) (env : WikiPutEnv) :
    wellFormedEnvelope (updateWikiPageHandler args env).1 := by
  unfold updateWikiPageHandler
  cases env.putResult
  · exact wellFormed_errResult _
  · exact wellFormed_okResult _

theorem wf_uploadProtocol (env : UploadEnv) (apiUrl fileName okMessageOf : String) :
    wellFormedEnvelope (uploadProtocol env apiUrl fileName okMessageOf).1 := by
  unfold uploadProtocol
  cases env.step1 with
  | error e => exact wellFormed_errResult _
  | ok stdout =>
      dsimp only
      split
      · cases env.step2 with
        | error e => exact wellFormed_errResult _
        | ok resp =>
            dsimp only
            cases uploadParseResponse resp
            · exact wellFormed_errResult _
            · exact wellFormed_okResult _
      · split
        · cases env.direct with
          | error e => exact wellFormed_errResult _
          | ok resp =>
              dsimp only
              cases uploadParseResponse resp
              · exact wellFormed_errResult _
              · exact wellFormed_okResult _
        · exact wellFormed_errResult _

theorem wf_uploadWikiFileHandler (args : UploadWikiFileArgs) (env : UploadEnv) :
    wellFormedEnvelope (uploadWikiFileHandler args env).1 := by
  unfold uploadWikiFileHandler
  split
  · exact wellFormed_errResult _
  · split
    · exact wellFormed_errResult _
    · exact wf_uploadProtocol env _ _ _

theorem wf_uploadWikiPageFileHandler (args : UploadWikiPageFileArgs) (env : UploadEnv) :
    wellFormedEnvelope (uploadWikiPageFileHandler args env).1 := by
  unfold uploadWikiPageFileHandler
  split
  · exact wellFormed_errResult _
  · split
    · exact wellFormed_errResult _
    · exact wf_uploadProtocol env _ _ _

theorem wf_downloadWikiPageFileHandler (args : DownloadWikiPageFileArgs)
    (env : DownloadEnv) : wellFormedEnvelope (downloadWikiPageFileHandler args env).1 := by
  unfold downloadWikiPageFileHandler
  cases env.apiResult with
  | error e => exact wellFormed_errResult _
  | ok dto =>
      cases args.savePath with
      | none => exact wellFormed_okResult _
      | some sp =>
          dsimp only
          split
          · exact wellFormed_okResult _
          · exact wellFormed_okResult _

theorem wf_downloadWikiAttachFileHandler (args : DownloadWikiAttachFileArgs)
    (env : DownloadEnv) : wellFormedEnvelope (downloadWikiAttachFileHandler args env).1 := by
  unfold downloadWikiAttachFileHandler
  cases env.apiResult with
  | error e => exact wellFormed_errResult _
  | ok dto =>
      cases args.savePath with
      | none => exact wellFormed_okResult _
      | some sp =>
          dsimp only
          split
          · exact wellFormed_okResult _
          · exact wellFormed_okResult _

/-- C8: every embedded tool handler, on every input and environment,
returns the uniform envelope — one text content item, with `isError: true`
and a text beginning "Error: " exactly on the failure paths, and no
`isError` key on success — and never lets an exception escape (each
handler is a total function into envelopes); moreover a failing sub-call
surfaces as that error envelope. -/
theorem tool_envelope_uniform
    (a1 : UpdateTaskArgs) (e1 : ProjectsEnv)
    (a2 : UpdateWikiPageArgs) (e2 : WikiPutEnv)
    (a3 : UploadWikiFileArgs) (a4 : UploadWikiPageFileArgs) (e3 e4 : UploadEnv)
    (a5 : DownloadWikiPageFileArgs) (a6 : DownloadWikiAttachFileArgs) (e5 e6 : DownloadEnv)
    (err s : String) :
    wellFormedEnvelope (updateTaskHandler a1 e1).1 ∧
    wellFormedEnvelope (updateWikiPageHandler a2 e2).1 ∧
    wellFormedEnvelope (uploadWikiFileHandler a3 e3).1 ∧
    wellFormedEnvelope (uploadWikiPageFileHandler a4 e4).1 ∧
    wellFormedEnvelope (downloadWikiPageFileHandler a5 e5).1 ∧
    wellFormedEnvelope (downloadWikiAttachFileHandler a6 e6).1 ∧
    (updateWikiPageHandler a2 { putResult := .error err }).1 = errResult err ∧
    (updateTaskHandler { a1 with subject := some s }
        { e1 with updateTaskResult := .error err }).1 = errResult err := by
  refine ⟨wf_updateTaskHandler a1 e1, wf_updateWikiPageHandler a2 e2,
    wf_uploadWikiFileHandler a3 e3, wf_uploadWikiPageFileHandler a4 e4,
    wf_downloadWikiPageFileHandler a5 e5, wf_downloadWikiAttachFileHandler a6 e6,
    rfl, ?_⟩
  have hlen : 0 < (buildUpdateParams { a1 with subject := some s }).length := by
    simp [buildUpdateParams, subjectSeg]
  simp only [updateTaskHandler]
  rw [if_pos hlen]
